import Mathlib

/-!
Verification of the ResiliTrack AI score aggregation and presentation
pipeline.  The React frontend (Chatbot.jsx, DashboardPage.jsx, Heatmap.jsx)
is embedded directly from the source.  The backend aggregator is not part of
the source tree, so its operations are modelled from the specification where
a claim depends on them; each such definition is marked in its doc comment.
-/

namespace ResiliTrack

/-- The aspectOrder list declared at the top of Chatbot.jsx: the seven
resilience aspect names, in presentation order. -/
def aspectOrder : List String :=
  [ "Economic Stability"
  , "Defense & Strategic Security"
  , "Healthcare & Biological Readiness"
  , "Cyber Resilience & Digital Infrastructure"
  , "Demographic & Social Stability"
  , "Energy Security"
  , "Debt & Fiscal Sustainability" ]

/-- The DEFAULT_ASPECTS list declared at the top of DashboardPage.jsx. -/
def DEFAULT_ASPECTS : List String :=
  [ "Economic Stability"
  , "Defense & Strategic Security"
  , "Healthcare & Biological Readiness"
  , "Cyber Resilience & Digital Infrastructure"
  , "Demographic & Social Stability"
  , "Energy Security"
  , "Debt & Fiscal Sustainability" ]

/-- The aspectOrder list declared inside the Heatmap component of
Heatmap.jsx. -/
def heatmapAspectOrder : List String :=
  [ "Economic Stability"
  , "Defense & Strategic Security"
  , "Healthcare & Biological Readiness"
  , "Cyber Resilience & Digital Infrastructure"
  , "Demographic & Social Stability"
  , "Energy Security"
  , "Debt & Fiscal Sustainability" ]

/-- One impact record as produced by the Impact Interpreter and consumed by
buildImpactSummary in Chatbot.jsx: a country name, an aspect name, an integer
delta and a reason text.  The empty string stands for an absent reason, as in
the JavaScript truthiness test of impact.reason. -/
structure Impact where
  country : String
  aspect : String
  delta : Int
  reason : String
deriving DecidableEq, Repr

/-- Modelled from the spec: clamp(x, 0, 100), the clamping operation of the
backend Aggregator (backend code is not under src/). -/
def clamp (x : Int) : Int := max 0 (min 100 x)

/-- Modelled from the spec: aggregate step 1 groups impacts by country and
aspect and sums the deltas within each group (backend code is not under
src/). -/
def summedDelta (impacts : List Impact) (c a : String) : Int :=
  (impacts.filter (fun i => i.country == c && i.aspect == a)).foldl
    (fun s i => s + i.delta) 0

/-- Modelled from the spec: aggregate step 2 computes
scenario_score = clamp(baseline_score + summed_delta, 0, 100) for every pair
in the baseline table (backend code is not under src/). -/
def scenarioScore (baseline : String → String → Int) (impacts : List Impact)
    (c a : String) : Int :=
  clamp (baseline c a + summedDelta impacts c a)

/-- Modelled from the spec: aggregate step 3 computes a country total as the
mean of the seven aspect scores of the country, rounded to the nearest
integer and clamped to [0,100] (backend code is not under src/). -/
def countryTotal (score : String → Int) : Int :=
  clamp ((2 * (aspectOrder.map score).sum + 7) / 14)

/-- Modelled from the spec: every record returned by the Impact Interpreter
is validated against the known country and aspect enumerations, and a record
with an unknown reference is dropped (sections 4.1 and 4.2 of the spec;
backend code is not under src/). -/
def validateImpacts (countries : List String) (impacts : List Impact) :
    List Impact :=
  impacts.filter (fun i =>
    countries.contains i.country && aspectOrder.contains i.aspect)

/-- Modelled from the spec: the output bundle of one analysis, with the score
tables as association lists keyed first by country and then by aspect
(section 6 of the spec; backend code is not under src/). -/
structure AnalysisResult where
  baseline_aspect_scores : List (String × List (String × Int))
  aspect_scores : List (String × List (String × Int))
  aspect_deltas : List (String × List (String × Int))
  baseline_country_scores : List (String × Int)
  country_scores : List (String × Int)
deriving DecidableEq, Repr

/-- Modelled from the spec: aggregate(baseline, impacts) validates the
impacts, sums deltas per group, clamps every scenario score, and derives the
country totals for every country of the enumeration (section 4.1 of the
spec; backend code is not under src/). -/
def aggregate (countries : List String) (baseline : String → String → Int)
    (impacts : List Impact) : AnalysisResult :=
  let valid := validateImpacts countries impacts
  { baseline_aspect_scores :=
      countries.map (fun c => (c, aspectOrder.map (fun a => (a, baseline c a))))
  , aspect_scores :=
      countries.map (fun c =>
        (c, aspectOrder.map (fun a => (a, scenarioScore baseline valid c a))))
  , aspect_deltas :=
      countries.map (fun c =>
        (c, aspectOrder.map (fun a => (a, summedDelta valid c a))))
  , baseline_country_scores :=
      countries.map (fun c => (c, countryTotal (fun a => baseline c a)))
  , country_scores :=
      countries.map (fun c => (c, countryTotal (scenarioScore baseline valid c))) }

/-- The ordering used by the comparator (a, b) => b[1] - a[1] given to
Array.prototype.sort in buildRankMap and sortedCountries of
DashboardPage.jsx: an entry may precede another when its score is greater or
equal. -/
def scoreGE (p q : String × Int) : Prop := q.2 ≤ p.2

instance : DecidableRel scoreGE := fun p q => Int.decLe q.2 p.2

instance : IsTotal (String × Int) scoreGE := ⟨fun a b => le_total b.2 a.2⟩

instance : IsTrans (String × Int) scoreGE := ⟨fun _ _ _ h1 h2 => le_trans h2 h1⟩

/-- The sort performed by Object.entries(scores).sort((a, b) => b[1] - a[1])
in DashboardPage.jsx.  Array.prototype.sort is stable per the ECMAScript
specification and the comparator orders entries by descending score, so the
call is embedded as a stable insertion sort under scoreGE. -/
def sortByScoreDesc (scores : List (String × Int)) : List (String × Int) :=
  List.insertionSort scoreGE scores

/-- sortedCountries from DashboardPage.jsx: the country names of the score
table in descending score order. -/
def sortedCountries (scores : List (String × Int)) : List String :=
  (sortByScoreDesc scores).map Prod.fst

/-- buildRankMap from DashboardPage.jsx: each country paired with its
1-based rank in descending score order. -/
def buildRankMap (scores : List (String × Int)) : List (String × Nat) :=
  (sortByScoreDesc scores).enum.map (fun p => (p.2.1, p.1 + 1))

/-- The delta accumulation of buildImpactSummary in Chatbot.jsx restricted
to one country and aspect pair: existing.delta += impact.delta for every
impact of the pair, in list order, starting from 0. -/
def summaryDelta (impacts : List Impact) (c a : String) : Int :=
  impacts.foldl
    (fun s i => if i.country == c && i.aspect == a then s + i.delta else s) 0

/-- The reason accumulation of buildImpactSummary in Chatbot.jsx for one
country and aspect pair: reasons.add(impact.reason) for every impact of the
pair with a truthy reason, in list order, where a JavaScript Set keeps
insertion order and ignores duplicates. -/
def summaryReasons (impacts : List Impact) (c a : String) : List String :=
  impacts.foldl
    (fun acc i =>
      if i.country == c && i.aspect == a && i.reason != "" then
        (if acc.contains i.reason then acc else acc ++ [i.reason])
      else acc)
    []

/-- The reason buildImpactSummary attaches to one country and aspect pair:
Array.from(data.reasons)[0], the first element of the reason set in
insertion order. -/
def summaryReason (impacts : List Impact) (c a : String) : Option String :=
  (summaryReasons impacts c a).head?

/-- JavaScript String.prototype.trim, on the character-list embedding of a
JavaScript string: whitespace is removed from both ends. -/
def jsTrim (s : List Char) : List Char :=
  ((s.dropWhile Char.isWhitespace).reverse.dropWhile Char.isWhitespace).reverse

/-- The trailing-period removal of formatReason in Chatbot.jsx:
if (clean.endsWith(".")) clean = clean.slice(0, -1). -/
def stripTrailingDot (l : List Char) : List Char :=
  if l.getLast? == some '.' then l.dropLast else l

/-- formatReason from Chatbot.jsx on the character-list embedding: an absent
reason (none or the empty string, both falsy) or the literal text
"no significant change" gives the empty string; otherwise the reason is
trimmed, one trailing period is removed, and the result is truncated to its
first 157 characters plus an ellipsis when longer than 160 characters. -/
def formatReason (reason : Option (List Char)) : List Char :=
  match reason with
  | none => []
  | some r =>
    if r == [] || r == "no significant change".toList then []
    else
      let clean := stripTrailingDot (jsTrim r)
      if clean.length > 160 then clean.take 157 ++ "...".toList else clean

/-- Modelled from the spec: the analyze operation of section 6 requires the
headline to be non-empty after trimming and fails with ValidationError
otherwise (backend code is not under src/). -/
def analyzeValidateHeadline (headline : List Char) : Except String Unit :=
  if jsTrim headline = [] then Except.error "ValidationError" else Except.ok ()

/-- One chat message of the Chatbot component state in Chatbot.jsx. -/
structure Msg where
  id : String
  text : List Char
  sender : String
  scenario : Option (List Char)
  pending : Bool
  isWelcome : Bool
  analysisData : Option AnalysisResult
deriving DecidableEq, Repr

/-- The welcome message of defaultMessages in Chatbot.jsx. -/
def welcomeMessage : Msg :=
  ⟨"welcome", "Welcome to ResiliTrack AI.".toList, "bot", none, false, true,
    none⟩

/-- defaultMessages from Chatbot.jsx. -/
def defaultMessages : List Msg := [welcomeMessage]

/-- handleSendMessage from Chatbot.jsx as a function of the current input
text and message list: when the trimmed input is empty it returns the state
unchanged and runs no scenario; otherwise it appends the user message and
returns the scenario text passed on to runScenario.  The fresh message id
produced by createMessageId is passed explicitly. -/
def handleSendMessage (newId : String) (input : List Char) (s : List Msg) :
    List Msg × Option (List Char) :=
  let scenarioText := jsTrim input
  if scenarioText = [] then (s, none)
  else
    (s ++ [⟨newId, scenarioText, "user", some scenarioText, false, false, none⟩],
      some scenarioText)

/-- One setMessages transition of the Chatbot component in Chatbot.jsx.
refreshEmpty covers refreshHistory on an empty or failed history fetch and
the chat-cleared handler; refreshHistory covers the rebuild from fetched
history, whose ids are database ids and never the literal id welcome;
appendMessage covers the user-message append of handleSendMessage and the
pending append of runScenario without a regenerate target, whose fresh ids
come from createMessageId (a timestamp-dash-random string, never the literal
welcome); deleteAndAppendPending covers runScenario with a regenerate
target, which is always the id of a message carrying a scenario; mapAtId
covers the three in-place map updates keyed by the pending id, which either
keep the id of the updated message or replace it with a database id. -/
inductive MsgStep : List Msg → List Msg → Prop where
  | refreshEmpty (s : List Msg) :
      MsgStep s defaultMessages
  | refreshHistory (s : List Msg) (mapped : List Msg)
      (h : ∀ m ∈ mapped, m.id ≠ "welcome") :
      MsgStep s (defaultMessages ++ mapped)
  | appendMessage (s : List Msg) (m : Msg) (hid : m.id ≠ "welcome") :
      MsgStep s (s ++ [m])
  | deleteAndAppendPending (s : List Msg) (tid : String) (p : Msg)
      (hid : p.id ≠ "welcome")
      (htid : ∃ m, m ∈ s ∧ m.id = tid ∧ m.scenario ≠ none) :
      MsgStep s ((s.filter (fun m => m.id != tid)) ++ [p])
  | mapAtId (s : List Msg) (pid : String) (f : Msg → Msg)
      (hpid : pid ≠ "welcome")
      (hf : ∀ m, m.id = pid → (f m).id ≠ "welcome") :
      MsgStep s (s.map (fun m => if m.id == pid then f m else m))

/-- The message states reachable from the initial Chatbot state through
setMessages transitions. -/
inductive MsgReachable : List Msg → Prop where
  | init : MsgReachable defaultMessages
  | step {s t : List Msg} (hs : MsgReachable s) (hst : MsgStep s t) :
      MsgReachable t

/-- The invariant maintained by every setMessages transition: the welcome
message sits at index 0 and no later message carries its id. -/
def WelcomeFirst (s : List Msg) : Prop :=
  s.head? = some welcomeMessage ∧ ∀ m ∈ s.tail, m.id ≠ "welcome"

lemma clamp_nonneg (x : Int) : 0 ≤ clamp x := le_max_left 0 _

lemma clamp_le_hundred (x : Int) : clamp x ≤ 100 :=
  max_le (by norm_num) (min_le_left 100 x)

/-- C1: for every baseline table and every impact list, every aspect score
and every country score produced by the aggregation pipeline lies in [0,100]
inclusive, for arbitrarily large positive or negative deltas; out-of-range
sums are clamped, never rejected. -/
theorem aggregate_scores_in_range (countries : List String)
    (baseline : String → String → Int) (impacts : List Impact) :
    (∀ row ∈ (aggregate countries baseline impacts).aspect_scores,
      ∀ cell ∈ row.2, 0 ≤ cell.2 ∧ cell.2 ≤ 100) ∧
    (∀ entry ∈ (aggregate countries baseline impacts).country_scores,
      0 ≤ entry.2 ∧ entry.2 ≤ 100) := by
  constructor
  · intro row hrow cell hcell
    obtain ⟨c, hc, rfl⟩ := List.mem_map.mp hrow
    obtain ⟨a, ha, rfl⟩ := List.mem_map.mp hcell
    exact ⟨clamp_nonneg _, clamp_le_hundred _⟩
  · intro entry hentry
    obtain ⟨c, hc, rfl⟩ := List.mem_map.mp hentry
    exact ⟨clamp_nonneg _, clamp_le_hundred _⟩

/-- Witness for C1 at a concrete input: a delta of 1000 on one aspect still
leaves the country total inside the range. -/
theorem aggregate_scores_in_range_witness :
    (("USA", (74 : Int)) ∈
      (aggregate ["USA", "Japan"] (fun _ _ => 70)
        [⟨"USA", "Economic Stability", 1000, ""⟩]).country_scores) ∧
    (0 ≤ (74 : Int) ∧ (74 : Int) ≤ 100) := by
  refine ⟨by decide, ?_⟩
  exact (aggregate_scores_in_range ["USA", "Japan"] (fun _ _ => 70)
    [⟨"USA", "Economic Stability", 1000, ""⟩]).2 ("USA", 74) (by decide)

/-- C2: for every complete baseline table whose entries lie in [0,100],
aggregate applied to an empty impact list returns scenario scores identical
to the baseline scores, both per aspect and per country. -/
theorem aggregate_empty_impacts_identity (countries : List String)
    (baseline : String → String → Int)
    (h : ∀ c a, 0 ≤ baseline c a ∧ baseline c a ≤ 100) :
    (aggregate countries baseline []).aspect_scores =
      (aggregate countries baseline []).baseline_aspect_scores ∧
    (aggregate countries baseline []).country_scores =
      (aggregate countries baseline []).baseline_country_scores := by
  have hs : ∀ c a, scenarioScore baseline [] c a = baseline c a := by
    intro c a
    unfold scenarioScore summedDelta clamp
    simp only [List.filter_nil, List.foldl_nil, add_zero]
    rw [min_eq_right (h c a).2, max_eq_right (h c a).1]
  constructor
  · show countries.map
        (fun c => (c, aspectOrder.map (fun a => (a, scenarioScore baseline [] c a)))) =
      countries.map (fun c => (c, aspectOrder.map (fun a => (a, baseline c a))))
    apply List.map_congr_left
    intro c hc
    refine congrArg (Prod.mk c) ?_
    apply List.map_congr_left
    intro a ha
    exact congrArg (Prod.mk a) (hs c a)
  · show countries.map (fun c => (c, countryTotal (scenarioScore baseline [] c))) =
      countries.map (fun c => (c, countryTotal (fun a => baseline c a)))
    apply List.map_congr_left
    intro c hc
    exact congrArg (Prod.mk c) (congrArg countryTotal (funext (fun a => hs c a)))

/-- Witness for C2 at a concrete complete baseline over ten countries. -/
theorem aggregate_empty_impacts_identity_witness :
    (aggregate
        ["USA", "Japan", "Germany", "India", "Brazil",
         "France", "United Kingdom", "Canada", "Australia", "China"]
        (fun _ _ => 70) []).country_scores =
      (aggregate
        ["USA", "Japan", "Germany", "India", "Brazil",
         "France", "United Kingdom", "Canada", "Australia", "China"]
        (fun _ _ => 70) []).baseline_country_scores :=
  (aggregate_empty_impacts_identity _ (fun _ _ => 70)
    (fun _ _ => ⟨by norm_num, by norm_num⟩)).2

lemma filter_orderedInsert (v : Int) (x : String × Int)
    (l : List (String × Int)) :
    (List.orderedInsert scoreGE x l).filter (fun p => p.2 == v) =
      ((x :: l).filter (fun p => p.2 == v)) := by
  induction l with
  | nil => rfl
  | cons b t ih =>
    simp only [List.orderedInsert]
    split_ifs with h
    · rfl
    · simp only [List.filter_cons] at ih ⊢
      rw [ih]
      by_cases hx : (x.2 == v) = true
      · have hxv : x.2 = v := by exact_mod_cast beq_iff_eq.mp hx
        have hlt : x.2 < b.2 := lt_of_not_le h
        have hb : (b.2 == v) = false := by
          refine beq_eq_false_iff_ne.mpr ?_
          intro hbv
          rw [hxv] at hlt
          rw [hbv] at hlt
          exact lt_irrefl v hlt
        simp [hx, hb]
      · simp [hx]

lemma filter_sortByScoreDesc (v : Int) (l : List (String × Int)) :
    (sortByScoreDesc l).filter (fun p => p.2 == v) =
      l.filter (fun p => p.2 == v) := by
  induction l with
  | nil => rfl
  | cons x t ih =>
    show (List.orderedInsert scoreGE x (List.insertionSort scoreGE t)).filter _ = _
    simp only [sortByScoreDesc] at ih
    rw [filter_orderedInsert, List.filter_cons, ih, List.filter_cons]

/-- C3: the country ranking of DashboardPage.jsx orders entries in
descending score order; entries with equal scores keep their input order
(so when the score table lists countries in the fixed enumeration order,
ties are broken by that order); the ranking is a permutation of the input
table; and identical inputs yield identical rankings. -/
theorem ranking_sorted_stable_deterministic (scores : List (String × Int)) :
    List.Sorted (fun p q : String × Int => q.2 ≤ p.2) (sortByScoreDesc scores) ∧
    (∀ v : Int, (sortByScoreDesc scores).filter (fun p => p.2 == v) =
      scores.filter (fun p => p.2 == v)) ∧
    List.Perm (sortByScoreDesc scores) scores ∧
    (∀ other : List (String × Int), scores = other →
      sortedCountries scores = sortedCountries other) := by
  refine ⟨?_, fun v => filter_sortByScoreDesc v scores,
    List.perm_insertionSort scoreGE scores, ?_⟩
  · exact List.sorted_insertionSort scoreGE scores
  · intro other h
    rw [h]

/-- Witness for C3: a two-country tie keeps the input order, and the
determinism conjunct applied at a concrete table. -/
theorem ranking_sorted_stable_deterministic_witness :
    sortedCountries [("USA", 70), ("Japan", 70)] = ["USA", "Japan"] ∧
    sortedCountries [("USA", 70), ("Japan", 70)] =
      sortedCountries [("USA", 70), ("Japan", 70)] :=
  ⟨by decide,
    (ranking_sorted_stable_deterministic [("USA", 70), ("Japan", 70)]).2.2.2
      [("USA", 70), ("Japan", 70)] rfl⟩

lemma summaryDelta_foldl (c a : String) (l : List Impact) :
    ∀ s : Int,
      l.foldl (fun s i =>
        if i.country == c && i.aspect == a then s + i.delta else s) s =
      s + summaryDelta l c a := by
  induction l with
  | nil =>
    intro s
    simp [summaryDelta]
  | cons x t ih =>
    intro s
    simp only [summaryDelta, List.foldl_cons]
    by_cases h : (x.country == c && x.aspect == a) = true
    · rw [if_pos h, if_pos h, ih (s + x.delta), ih (0 + x.delta)]
      simp only [summaryDelta]
      ring
    · rw [if_neg h, if_neg h, ih s]
      simp only [summaryDelta]

lemma summaryDelta_cons (x : Impact) (t : List Impact) (c a : String) :
    summaryDelta (x :: t) c a =
      (if x.country == c && x.aspect == a then x.delta else 0) +
        summaryDelta t c a := by
  show List.foldl _ (if x.country == c && x.aspect == a then 0 + x.delta else 0) t = _
  rw [summaryDelta_foldl]
  by_cases h : (x.country == c && x.aspect == a) = true
  · rw [if_pos h, if_pos h]
    ring
  · rw [if_neg h, if_neg h]

lemma summaryDelta_append (l1 l2 : List Impact) (c a : String) :
    summaryDelta (l1 ++ l2) c a = summaryDelta l1 c a + summaryDelta l2 c a := by
  induction l1 with
  | nil => simp [summaryDelta]
  | cons x t ih =>
    rw [List.cons_append, summaryDelta_cons, summaryDelta_cons, ih]
    ring

/-- C4: deltas of records sharing the same country and aspect pair are
summed within their group, so replacing two records of the same pair by one
record carrying the summed delta leaves the aggregated per pair delta
unchanged, for every pair. -/
theorem summaryDelta_merge_pair (pre mid post : List Impact) (r1 r2 : Impact)
    (rs : String) (hc : r2.country = r1.country) (ha : r2.aspect = r1.aspect)
    (c a : String) :
    summaryDelta (pre ++ r1 :: (mid ++ r2 :: post)) c a =
      summaryDelta
        (pre ++ (Impact.mk r1.country r1.aspect (r1.delta + r2.delta) rs) ::
          (mid ++ post)) c a := by
  rw [summaryDelta_append, summaryDelta_cons, summaryDelta_append,
      summaryDelta_cons, summaryDelta_append, summaryDelta_cons,
      summaryDelta_append]
  rw [hc, ha]
  by_cases h : (r1.country == c && r1.aspect == a) = true
  · rw [if_pos h, if_pos h, if_pos h]
    ring
  · rw [if_neg h, if_neg h, if_neg h]
    ring

/-- Witness for C4: two records of the same pair merged into one with the
summed delta give the same grouped delta. -/
theorem summaryDelta_merge_pair_witness :
    summaryDelta
        [⟨"USA", "Energy Security", 3, "storm"⟩,
         ⟨"USA", "Energy Security", 4, "outage"⟩] "USA" "Energy Security" =
      summaryDelta [⟨"USA", "Energy Security", 7, "merged"⟩]
        "USA" "Energy Security" :=
  summaryDelta_merge_pair [] [] []
    ⟨"USA", "Energy Security", 3, "storm"⟩
    ⟨"USA", "Energy Security", 4, "outage"⟩ "merged" rfl rfl
    "USA" "Energy Security"

lemma summaryReasons_head_aux (c a : String) (l : List Impact) :
    ∀ acc : List String,
      (l.foldl
        (fun acc i =>
          if i.country == c && i.aspect == a && i.reason != "" then
            (if acc.contains i.reason then acc else acc ++ [i.reason])
          else acc)
        acc).head? =
      (acc ++ (l.filter (fun i =>
          i.country == c && i.aspect == a && i.reason != "")).map
        Impact.reason).head? := by
  induction l with
  | nil =>
    intro acc
    simp
  | cons x t ih =>
    intro acc
    simp only [List.foldl_cons, List.filter_cons]
    by_cases hp : (x.country == c && x.aspect == a && x.reason != "") = true
    · rw [if_pos hp, if_pos hp]
      by_cases hmem : acc.contains x.reason = true
      · rw [if_pos hmem, ih acc]
        cases acc with
        | nil => simp at hmem
        | cons b bt => rfl
      · rw [if_neg hmem, ih (acc ++ [x.reason]), List.append_assoc]
        rfl
    · rw [if_neg hp, if_neg hp, ih acc]

/-- C7: when multiple impact records hit the same country and aspect pair,
the reason buildImpactSummary attaches to the pair is the reason of the
first record of that pair carrying a non-empty reason, if any. -/
theorem summaryReason_first_nonempty (impacts : List Impact) (c a : String) :
    summaryReason impacts c a =
      ((impacts.filter (fun i =>
          i.country == c && i.aspect == a && i.reason != "")).map
        Impact.reason).head? := by
  show (impacts.foldl _ []).head? = _
  rw [summaryReasons_head_aux c a impacts []]
  rw [List.nil_append]

/-- C5: an impact record whose country or aspect is not in the fixed
enumerations is dropped by validation, is absent from the validated list,
and does not alter any part of the aggregate output. -/
theorem invalid_impact_dropped (countries : List String)
    (baseline : String → String → Int) (pre post : List Impact) (r : Impact)
    (h : countries.contains r.country = false ∨
      aspectOrder.contains r.aspect = false) :
    validateImpacts countries (pre ++ r :: post) =
      validateImpacts countries (pre ++ post) ∧
    r ∉ validateImpacts countries (pre ++ r :: post) ∧
    aggregate countries baseline (pre ++ r :: post) =
      aggregate countries baseline (pre ++ post) := by
  have hr : (countries.contains r.country && aspectOrder.contains r.aspect) =
      false := by
    cases h with
    | inl h1 => rw [h1]; exact Bool.false_and _
    | inr h2 => rw [h2]; exact Bool.and_false _
  have hv : validateImpacts countries (pre ++ r :: post) =
      validateImpacts countries (pre ++ post) := by
    unfold validateImpacts
    rw [List.filter_append, List.filter_append, List.filter_cons, hr]
    simp
  refine ⟨hv, ?_, ?_⟩
  · intro hmem
    have hpred := List.of_mem_filter hmem
    rw [hr] at hpred
    cases hpred
  · unfold aggregate
    rw [hv]

/-- Witness for C5: a record referencing the unknown country Atlantis is
absent from the validated impact list. -/
theorem invalid_impact_dropped_witness :
    (⟨"Atlantis", "Energy Security", -50, "sinks"⟩ : Impact) ∉
      validateImpacts ["USA", "Japan"]
        ([⟨"USA", "Energy Security", -5, "storm"⟩] ++
          (⟨"Atlantis", "Energy Security", -50, "sinks"⟩ : Impact) :: []) :=
  (invalid_impact_dropped ["USA", "Japan"] (fun _ _ => 70)
    [⟨"USA", "Energy Security", -5, "storm"⟩] []
    ⟨"Atlantis", "Energy Security", -50, "sinks"⟩ (Or.inl (by decide))).2.1

lemma welcomeFirst_default : WelcomeFirst defaultMessages := by
  refine ⟨rfl, ?_⟩
  intro m hm
  cases hm

lemma welcomeFirst_cons {s : List Msg} (hs : WelcomeFirst s) :
    ∃ ts, s = welcomeMessage :: ts ∧ ∀ m ∈ ts, m.id ≠ "welcome" := by
  obtain ⟨hhead, htail⟩ := hs
  cases s with
  | nil => exact absurd hhead (by simp)
  | cons a ts =>
    have ha : a = welcomeMessage := by simpa using hhead
    exact ⟨ts, by rw [ha], htail⟩

lemma welcomeFirst_step {s t : List Msg} (hs : WelcomeFirst s)
    (hst : MsgStep s t) : WelcomeFirst t := by
  cases hst with
  | refreshEmpty => exact welcomeFirst_default
  | refreshHistory mapped h =>
    exact ⟨rfl, h⟩
  | appendMessage m hid =>
    obtain ⟨ts, rfl, hts⟩ := welcomeFirst_cons hs
    refine ⟨rfl, ?_⟩
    intro mm hmm
    rcases List.mem_append.mp hmm with hin | hin
    · exact hts mm hin
    · rcases List.mem_singleton.mp hin with rfl
      exact hid
  | deleteAndAppendPending tid p hid htid =>
    obtain ⟨ts, rfl, hts⟩ := welcomeFirst_cons hs
    obtain ⟨m0, hm0s, hm0id, hm0sc⟩ := htid
    have htidne : tid ≠ "welcome" := by
      rcases List.mem_cons.mp hm0s with rfl | hin
      · exact absurd rfl hm0sc
      · rw [← hm0id]
        exact hts m0 hin
    have hfc : (welcomeMessage :: ts).filter (fun m => m.id != tid) =
        welcomeMessage :: ts.filter (fun m => m.id != tid) := by
      rw [List.filter_cons, if_pos]
      exact bne_iff_ne.mpr (fun hcontra => htidne hcontra.symm)
    rw [hfc]
    refine ⟨rfl, ?_⟩
    intro mm hmm
    rcases List.mem_append.mp hmm with hin | hin
    · exact hts mm (List.mem_of_mem_filter hin)
    · rcases List.mem_singleton.mp hin with rfl
      exact hid
  | mapAtId pid f hpid hf =>
    obtain ⟨ts, rfl, hts⟩ := welcomeFirst_cons hs
    have hw : (if welcomeMessage.id == pid then f welcomeMessage
        else welcomeMessage) = welcomeMessage := by
      rw [if_neg]
      intro hcontra
      exact hpid ((beq_iff_eq.mp hcontra).symm)
    rw [List.map_cons, hw]
    refine ⟨rfl, ?_⟩
    intro mm hmm
    obtain ⟨m, hmts, rfl⟩ := List.mem_map.mp hmm
    by_cases hb : (m.id == pid) = true
    · rw [if_pos hb]
      exact hf m (beq_iff_eq.mp hb)
    · rw [if_neg hb]
      exact hts m hmts

/-- C6: the analyze operation requires a headline that is non-empty after
trimming and fails with ValidationError otherwise; correspondingly, when
the trimmed input is empty, handleSendMessage returns without adding a user
message and without running any analysis. -/
theorem empty_headline_rejected (newId : String) (input : List Char)
    (s : List Msg) (h : jsTrim input = []) :
    handleSendMessage newId input s = (s, none) ∧
    (∀ headline : List Char,
      analyzeValidateHeadline headline = Except.error "ValidationError" ↔
        jsTrim headline = []) := by
  constructor
  · show (if jsTrim input = [] then (s, none) else _) = (s, none)
    rw [if_pos h]
  · intro headline
    unfold analyzeValidateHeadline
    by_cases hh : jsTrim headline = []
    · rw [if_pos hh]
      exact ⟨fun _ => hh, fun _ => rfl⟩
    · rw [if_neg hh]
      constructor
      · intro hcontra
        exact Except.noConfusion hcontra
      · intro hcontra
        exact absurd hcontra hh

/-- Witness for C6: an all-whitespace input changes nothing and runs no
analysis. -/
theorem empty_headline_rejected_witness :
    handleSendMessage "id1" ("   ".toList) [] = ([], none) :=
  (empty_headline_rejected "id1" ("   ".toList) [] (by decide)).1

lemma formatReason_some (r : List Char) (h1 : r ≠ [])
    (h2 : r ≠ "no significant change".toList) :
    formatReason (some r) =
      if (stripTrailingDot (jsTrim r)).length > 160 then
        (stripTrailingDot (jsTrim r)).take 157 ++ "...".toList
      else stripTrailingDot (jsTrim r) := by
  show (if (r == [] || r == "no significant change".toList) = true
      then ([] : List Char) else _) = _
  have hb : (r == [] || r == "no significant change".toList) = false := by
    rw [Bool.or_eq_false_iff]
    exact ⟨beq_eq_false_iff_ne.mpr h1, beq_eq_false_iff_ne.mpr h2⟩
  rw [hb]
  rfl

set_option maxRecDepth 40000 in
/-- C9 counterexample: a reason of 161 characters ending in a period is
longer than 160 characters after trimming, yet formatReason does not
truncate it to its first 157 characters plus an ellipsis, because the
length test runs after the trailing period is removed. -/
theorem formatReason_claim_counterexample :
    160 < (jsTrim (List.replicate 160 'a' ++ ['.'])).length ∧
    formatReason (some (List.replicate 160 'a' ++ ['.'])) ≠
      (jsTrim (List.replicate 160 'a' ++ ['.'])).take 157 ++ "...".toList := by
  decide

/-- C9 amended: formatReason returns the empty string when the reason is
absent, empty, or equals the literal no significant change; otherwise the
result has at most 160 characters, and whenever the reason is longer than
160 characters after trimming and removing one trailing period, it is
truncated to the first 157 of those characters followed by an ellipsis,
and is returned whole otherwise. -/
theorem formatReason_spec (r : List Char) :
    formatReason none = [] ∧
    formatReason (some []) = [] ∧
    formatReason (some ("no significant change".toList)) = [] ∧
    (formatReason (some r)).length ≤ 160 ∧
    (r ≠ [] → r ≠ "no significant change".toList →
      ((stripTrailingDot (jsTrim r)).length > 160 →
        formatReason (some r) =
          (stripTrailingDot (jsTrim r)).take 157 ++ "...".toList) ∧
      ((stripTrailingDot (jsTrim r)).length ≤ 160 →
        formatReason (some r) = stripTrailingDot (jsTrim r))) := by
  refine ⟨rfl, by decide, by decide, ?_, ?_⟩
  · by_cases h1 : r = []
    · subst h1
      decide
    · by_cases h2 : r = "no significant change".toList
      · subst h2
        decide
      · rw [formatReason_some r h1 h2]
        by_cases h3 : (stripTrailingDot (jsTrim r)).length > 160
        · rw [if_pos h3, List.length_append, List.length_take]
          have hdots : ("...".toList).length = 3 := rfl
          rw [hdots]
          omega
        · rw [if_neg h3]
          omega
  · intro h1 h2
    rw [formatReason_some r h1 h2]
    constructor
    · intro h3
      rw [if_pos h3]
    · intro h3
      rw [if_neg (by omega)]

/-- Witness for C9 amended: a 50-character reason with no trailing period
is returned whole. -/
theorem formatReason_spec_witness :
    formatReason (some (List.replicate 50 'b')) =
      stripTrailingDot (jsTrim (List.replicate 50 'b')) := by
  have h := (formatReason_spec (List.replicate 50 'b')).2.2.2.2
    (by decide) (by decide)
  exact h.2 (by decide)

/-- C10: every reachable Chatbot message state keeps the welcome message at
index 0: the initial state starts with it, refreshHistory rebuilds the list
with it first, handleSendMessage only appends, and runScenario only
appends, maps in place at a fresh id, or deletes by the id of a message
carrying a scenario, which the welcome message lacks. -/
theorem welcome_message_always_first (s : List Msg) (h : MsgReachable s) :
    s.head? = some welcomeMessage := by
  have hw : WelcomeFirst s := by
    induction h with
    | init => exact welcomeFirst_default
    | step hs hst ih => exact welcomeFirst_step ih hst
  exact hw.1

/-- Witness for C10: the welcome message is still first after one user
message is appended. -/
theorem welcome_message_always_first_witness :
    (defaultMessages ++
      [(⟨"123-abc", "flood hits ports".toList, "user",
        some ("flood hits ports".toList), false, false, none⟩ : Msg)]).head? =
      some welcomeMessage :=
  welcome_message_always_first _
    (MsgReachable.step MsgReachable.init
      (MsgStep.appendMessage defaultMessages
        ⟨"123-abc", "flood hits ports".toList, "user",
          some ("flood hits ports".toList), false, false, none⟩ (by decide)))

/-- C8: the aspect enumeration appears by the same string literals and in
the same order in the Chatbot aspectOrder, the Dashboard DEFAULT_ASPECTS and
the Heatmap aspectOrder, as 7-element sequences. -/
theorem aspect_lists_agree :
    aspectOrder = DEFAULT_ASPECTS ∧ aspectOrder = heatmapAspectOrder ∧
    aspectOrder.length = 7 := by
  refine ⟨rfl, rfl, rfl⟩

end ResiliTrack
